import Mathlib

/-
Verification of the T56 wire-protocol translation layer (src/t56.c of the
minipro repository) against its natural-language specification.

The operations of t56.c are embedded shallowly: every message buffer is a
List Nat of byte values, the USB transport (msg_send / msg_recv, which live
below this layer) is an oracle deciding the success of each transport call in
order and supplying the bytes a receive returns, and every operation returns
its success flag, its outputs and the trace of transport interactions it
performed.  The static bitstream_uploaded flag of t56_send_bitstream is
threaded explicitly.  Calls dispatched to the alternate bit-banged protocol
(bb_*, out of scope for this layer) are recorded as opaque trace events
carrying the forwarded scalar arguments, and their result is an oracle bit.
-/

namespace T56

/-- Byte lookup in a message buffer; out-of-range positions read as 0. -/
def byteAt (l : List Nat) (i : Nat) : Nat := l.getD i 0

/-- Modelled from the spec: format_int of the Message Codec (usb.h, which is
not under src/) packs an integer into consecutive bytes at a fixed offset;
every call in t56.c selects MP_LITTLE_ENDIAN, so only the little-endian
direction is embedded: least significant byte first. -/
def format_int (b : List Nat) (off : Nat) : Nat → Nat → List Nat
  | 0, _ => b
  | n + 1, v => format_int (b.set off (v % 256)) (off + 1) n (v / 256)

/-- Modelled from the spec: load_int of the Message Codec with
MP_LITTLE_ENDIAN, reading n bytes least-significant-first. -/
def load_int_le (b : List Nat) (off : Nat) : Nat → Nat
  | 0 => 0
  | n + 1 => byteAt b off + 256 * load_int_le b (off + 1) n

/-- Modelled from the spec: load_int of the Message Codec with
MP_BIG_ENDIAN, reading n bytes most-significant-first. -/
def load_int_be (b : List Nat) (off : Nat) : Nat → Nat
  | 0 => 0
  | n + 1 => load_int_be b off n * 256 + byteAt b (off + n)

/-- memcpy of n bytes of src into b starting at offset off. -/
def memcpyInto (b : List Nat) (off : Nat) (src : List Nat) (n : Nat) : List Nat :=
  b.take off ++ src.take n ++ b.drop (off + n)

/-- memcpy of n bytes starting at srcOff of src over the front of dst. -/
def memcpyFrom (dst src : List Nat) (srcOff n : Nat) : List Nat :=
  (src.drop srcOff).take n ++ dst.drop n

/-- A zero-filled message buffer, as produced by memset(msg, 0, n). -/
def zeros (n : Nat) : List Nat := List.replicate n 0

/- Opcode constants from src/t56.c lines 34-60. -/

def T56_BEGIN_TRANS : Nat := 0x03

def T56_END_TRANS : Nat := 0x04

def T56_READID : Nat := 0x05

def T56_READ_USER : Nat := 0x06

def T56_WRITE_USER : Nat := 0x07

def T56_READ_CFG : Nat := 0x08

def T56_WRITE_CFG : Nat := 0x09

def T56_WRITE_USER_DATA : Nat := 0x0A

def T56_READ_USER_DATA : Nat := 0x0B

def T56_WRITE_CODE : Nat := 0x0C

def T56_READ_CODE : Nat := 0x0D

def T56_ERASE : Nat := 0x0E

def T56_READ_DATA : Nat := 0x10

def T56_WRITE_DATA : Nat := 0x11

def T56_WRITE_LOCK : Nat := 0x14

def T56_READ_LOCK : Nat := 0x15

def T56_READ_CALIBRATION : Nat := 0x16

def T56_PROTECT_OFF : Nat := 0x18

def T56_PROTECT_ON : Nat := 0x19

def T56_READ_JEDEC : Nat := 0x1D

def T56_WRITE_JEDEC : Nat := 0x1E

def T56_WRITE_BITSTREAM : Nat := 0x26

def T56_AUTODETECT : Nat := 0x37

def T56_REQUEST_STATUS : Nat := 0x39

/-- Modelled from the spec: MP_ID_TYPE3 from minipro.h (not under src/); the
spec states that chip-ID types 3 and 4 decode little-endian. -/
def MP_ID_TYPE3 : Nat := 3

/-- Modelled from the spec: MP_ID_TYPE4 from minipro.h (not under src/). -/
def MP_ID_TYPE4 : Nat := 4

/-- The logical memory kind argument of read_block / write_block: the C code
compares the type byte against the three distinct constants MP_CODE, MP_DATA
and MP_USER from minipro.h; a value equal to none of them is kept as a raw
byte. -/
inductive MPMemType where
  | code
  | data
  | user
  | other (n : Nat)
deriving DecidableEq

/-- The fuse kind argument of read_fuses / write_fuses: compared against
MP_FUSE_USER, MP_FUSE_CFG and MP_FUSE_LOCK from minipro.h. -/
inductive MPFuseType where
  | user
  | cfg
  | lock
  | other (n : Nat)
deriving DecidableEq

/-- A call forwarded verbatim to the alternate bit-banged protocol (bb_*,
out of scope for this layer); scalar arguments are carried along. -/
inductive BBCall where
  | beginTrans
  | endTrans
  | readBlock (ty : MPMemType) (addr : Nat) (len : Nat)
  | writeBlock (ty : MPMemType) (addr : Nat) (len : Nat)
  | readFuses (ty : MPFuseType) (length : Nat) (items : Nat)
  | writeFuses (ty : MPFuseType) (length : Nat) (items : Nat)
  | readCalibration (len : Nat)
  | getChipId
  | spiAutodetect (ty : Nat)
  | protectOff
  | protectOn
  | eraseOp
  | writeJedecRow (row fl size : Nat)
  | readJedecRow (row fl size : Nat)
deriving DecidableEq

/-- One transport interaction of an operation: a native send of the first
len bytes of a message buffer, a native receive of len bytes, or a dispatch
to the alternate bit-banged protocol. -/
inductive Event where
  | send (data : List Nat) (len : Nat)
  | recv (len : Nat)
  | bb (call : BBCall)
deriving DecidableEq

/-- The transport / collaborator oracle: ok i decides whether the i-th
transport call of the operation succeeds, rd i j is byte j delivered by a
receive that is the i-th transport call, bb is the result of a forwarded
bit-banged call, and algoOk / algoLength / bitstream model the externally
resolved FPGA algorithm (get_algorithm is not under src/). -/
structure Ctx where
  ok : Nat → Bool
  rd : Nat → Nat → Nat
  bb : Bool
  algoOk : Bool
  algoLength : Nat
  bitstream : List Nat

/-- Result of an operation: success flag, outputs, transport trace. -/
structure Res (α : Type) where
  ok : Bool
  out : α
  trace : List Event

/-- The bytes a receive of len bytes places in the destination buffer. -/
def recvInto (c : Ctx) (i : Nat) (buf : List Nat) (len : Nat) : List Nat :=
  (List.range len).map (c.rd i) ++ buf.drop len

/- Data model: the device descriptor fields t56.c reads. -/

structure Voltages where
  raw_voltages : Nat

structure Flags where
  custom_protocol : Bool
  raw_flags : Nat

structure FuseDecl where
  num_fuses : Nat
deriving DecidableEq

structure Device where
  protocol_id : Nat
  variant : Nat
  chip_info : Nat
  pin_map : Nat
  data_memory_size : Nat
  data_memory2_size : Nat
  page_size : Nat
  pulse_delay : Nat
  code_memory_size : Nat
  voltages : Voltages
  packed_package : Nat
  read_buffer_size : Nat
  write_buffer_size : Nat
  chip_id_bytes_count : Nat
  flags : Flags
  config : Option FuseDecl

structure Handle where
  device : Device
  icsp : Nat

/-- Decoded status record (minipro_status_t fields written by
t56_get_ovc_status). -/
structure MinStatus where
  error : Nat
  address : Nat
  c1 : Nat
  c2 : Nat
deriving DecidableEq

/-- Kind-to-opcode map of t56_read_block (t56.c lines 204-213). -/
def readBlockOpcode : MPMemType → Option Nat
  | .code => some T56_READ_CODE
  | .data => some T56_READ_DATA
  | .user => some T56_READ_USER_DATA
  | .other _ => none

/-- Kind-to-opcode map of t56_write_block (t56.c lines 237-246). -/
def writeBlockOpcode : MPMemType → Option Nat
  | .code => some T56_WRITE_CODE
  | .data => some T56_WRITE_DATA
  | .user => some T56_WRITE_USER_DATA
  | .other _ => none

/-- Kind-to-opcode map of t56_read_fuses (t56.c lines 269-278). -/
def readFuseOpcode : MPFuseType → Option Nat
  | .user => some T56_READ_USER
  | .cfg => some T56_READ_CFG
  | .lock => some T56_READ_LOCK
  | .other _ => none

/-- Kind-to-opcode map of t56_write_fuses (t56.c lines 303-311).  The
unknown-kind branch of the C code prints a diagnostic but does not return,
so the unmapped kind byte itself becomes the opcode; the map is total. -/
def writeFuseOpcode : MPFuseType → Nat
  | .user => T56_WRITE_USER
  | .cfg => T56_WRITE_CFG
  | .lock => T56_WRITE_LOCK
  | .other n => n % 256

/-- Shallow embedding of t56_read_block (t56.c lines 196-227). -/
def t56_read_block (c : Ctx) (h : Handle) (ty : MPMemType) (addr : Nat)
    (buf : List Nat) (len : Nat) : Res (List Nat) :=
  if h.device.flags.custom_protocol then
    { ok := c.bb, out := buf, trace := [.bb (.readBlock ty addr len)] }
  else
    match readBlockOpcode ty with
    | none => { ok := false, out := buf, trace := [] }
    | some op =>
      let msg := format_int (format_int ((zeros 64).set 0 op) 2 2 len) 4 4 addr
      if c.ok 0 then
        { ok := c.ok 1, out := recvInto c 1 buf (len + 16),
          trace := [.send msg 8, .recv (len + 16)] }
      else { ok := false, out := buf, trace := [.send msg 8] }

/-- Shallow embedding of t56_write_block (t56.c lines 229-259). -/
def t56_write_block (c : Ctx) (h : Handle) (ty : MPMemType) (addr : Nat)
    (buf : List Nat) (len : Nat) : Res Unit :=
  if h.device.flags.custom_protocol then
    { ok := c.bb, out := (), trace := [.bb (.writeBlock ty addr len)] }
  else
    match writeBlockOpcode ty with
    | none => { ok := false, out := (), trace := [] }
    | some op =>
      let msg := format_int (format_int ((zeros 64).set 0 op) 2 2 len) 4 4 addr
      if c.ok 0 then
        { ok := c.ok 1, out := (),
          trace := [.send msg 8, .send buf h.device.write_buffer_size] }
      else { ok := false, out := (), trace := [.send msg 8] }

/-- Shallow embedding of t56_read_fuses (t56.c lines 261-292). -/
def t56_read_fuses (c : Ctx) (h : Handle) (ty : MPFuseType) (length : Nat)
    (items_count : Nat) (buffer : List Nat) : Res (List Nat) :=
  if h.device.flags.custom_protocol then
    { ok := c.bb, out := buffer, trace := [.bb (.readFuses ty length items_count)] }
  else
    match readFuseOpcode ty with
    | none => { ok := false, out := buffer, trace := [] }
    | some op =>
      let msg := format_int ((((zeros 64).set 0 op).set 1
          (h.device.protocol_id % 256)).set 2 (items_count % 256)) 4 4
          h.device.code_memory_size
      if c.ok 0 then
        if c.ok 1 then
          let resp := (List.range 64).map (c.rd 1)
          { ok := true, out := memcpyFrom buffer resp 8 length,
            trace := [.send msg 8, .recv 64] }
        else { ok := false, out := buffer, trace := [.send msg 8, .recv 64] }
      else { ok := false, out := buffer, trace := [.send msg 8] }

/-- Shallow embedding of t56_write_fuses (t56.c lines 294-323).  Note: the
unknown-kind branch only prints a diagnostic, so the send happens for every
kind; a null buffer leaves everything but the opcode byte zero, and a
non-null buffer embeds code_memory_size - 0x38 (uint32 wrap-around) at
offset 4 and the buffer contents at offset 8.  The full 64 bytes are sent. -/
def t56_write_fuses (c : Ctx) (h : Handle) (ty : MPFuseType) (length : Nat)
    (items_count : Nat) (buffer : Option (List Nat)) : Res Unit :=
  if h.device.flags.custom_protocol then
    { ok := c.bb, out := (), trace := [.bb (.writeFuses ty length items_count)] }
  else
    let msg0 := (zeros 64).set 0 (writeFuseOpcode ty)
    let msg := match buffer with
      | none => msg0
      | some b =>
        memcpyInto (format_int ((msg0.set 1 (h.device.protocol_id % 256)).set 2
          (items_count % 256)) 4 4
          ((h.device.code_memory_size + 2 ^ 32 - 0x38) % 2 ^ 32)) 8 b length
    { ok := c.ok 0, out := (), trace := [.send msg 64] }

/-- Shallow embedding of t56_read_calibration (t56.c lines 325-338). -/
def t56_read_calibration (c : Ctx) (h : Handle) (buffer : List Nat)
    (len : Nat) : Res (List Nat) :=
  if h.device.flags.custom_protocol then
    { ok := c.bb, out := buffer, trace := [.bb (.readCalibration len)] }
  else
    let msg := format_int ((zeros 64).set 0 T56_READ_CALIBRATION) 2 2 len
    if c.ok 0 then
      { ok := c.ok 1, out := recvInto c 1 buffer len,
        trace := [.send msg 64, .recv len] }
    else { ok := false, out := buffer, trace := [.send msg 64] }

/-- Shallow embedding of t56_get_chip_id (t56.c lines 340-368).  The request
buffer is initialized with memset(msg, 0xd0, 32), then only byte 0 is set;
8 bytes are sent.  The type and device-id outputs are threaded as initial
values type0 / id0 and are overwritten only after both transport calls
succeed. -/
def t56_get_chip_id (c : Ctx) (h : Handle) (type0 id0 : Nat) :
    Res (Nat × Nat) :=
  if h.device.flags.custom_protocol then
    { ok := c.bb, out := (type0, id0), trace := [.bb .getChipId] }
  else
    let msg := (List.replicate 32 0xd0).set 0 T56_READID
    if c.ok 0 then
      if c.ok 1 then
        let resp := (List.range 32).map (c.rd 1)
        let ty := byteAt resp 0
        let id_length := if h.device.chip_id_bytes_count > 4 then 4
          else h.device.chip_id_bytes_count
        let id := if id_length ≠ 0 then
            (if ty = MP_ID_TYPE3 ∨ ty = MP_ID_TYPE4 then
              load_int_le resp 2 id_length
            else load_int_be resp 2 id_length)
          else 0
        { ok := true, out := (ty, id), trace := [.send msg 8, .recv 32] }
      else { ok := false, out := (type0, id0), trace := [.send msg 8, .recv 32] }
    else { ok := false, out := (type0, id0), trace := [.send msg 8] }

/-- Shallow embedding of t56_get_ovc_status (t56.c lines 454-473).  This
operation has no custom-protocol dispatch: the native status request is
always sent; the flag only suppresses the decode of the status record.
The first transport call of the operation carries index i0 so that the
function can also be invoked from within begin_transaction. -/
def t56_get_ovc_status (c : Ctx) (i0 : Nat) (h : Handle)
    (status0 : Option MinStatus) (ovc0 : Nat) : Res (Option MinStatus × Nat) :=
  let msg := (zeros 32).set 0 T56_REQUEST_STATUS
  if c.ok i0 then
    if c.ok (i0 + 1) then
      let resp := (List.range 32).map (c.rd (i0 + 1))
      let st := match status0 with
        | some s =>
          if h.device.flags.custom_protocol then some s
          else some { error := byteAt resp 0, address := load_int_le resp 8 4,
                      c1 := load_int_le resp 2 2, c2 := load_int_le resp 4 2 }
        | none => none
      { ok := true, out := (st, byteAt resp 12), trace := [.send msg 8, .recv 32] }
    else { ok := false, out := (status0, ovc0), trace := [.send msg 8, .recv 32] }
  else { ok := false, out := (status0, ovc0), trace := [.send msg 8] }

/-- Result of t56_send_bitstream: success flag, updated session flag, index
of the next transport call, trace. -/
structure BSOut where
  ok : Bool
  uploaded : Bool
  next : Nat
  trace : List Event

/-- Shallow embedding of t56_send_bitstream (t56.c lines 73-111).  The
static bitstream_uploaded session flag is the explicit uploaded argument;
get_algorithm (external collaborator, not under src/) is the algoOk oracle.
If the flag is set nothing is sent; otherwise an 8-byte header carrying the
algorithm length little-endian at offset 4 is sent, then the raw bitstream
payload, and the flag is set only when both sends succeed. -/
def t56_send_bitstream (c : Ctx) (i0 : Nat) (uploaded : Bool) : BSOut :=
  if uploaded then { ok := true, uploaded := true, next := i0, trace := [] }
  else if c.algoOk then
    let msg := format_int ((zeros 64).set 0 T56_WRITE_BITSTREAM) 4 4 c.algoLength
    if c.ok i0 then
      if c.ok (i0 + 1) then
        { ok := true, uploaded := true, next := i0 + 2,
          trace := [.send msg 8, .send c.bitstream c.algoLength] }
      else
        { ok := false, uploaded := false, next := i0 + 2,
          trace := [.send msg 8, .send c.bitstream c.algoLength] }
    else { ok := false, uploaded := false, next := i0 + 1, trace := [.send msg 8] }
  else { ok := false, uploaded := false, next := i0, trace := [] }

/-- The 64-byte begin-transaction message as built by t56_begin_transaction
(t56.c lines 127-163) on top of its stack buffer: the function performs no
memset, so init is the buffer's prior (uninitialized) contents and every
byte the function does not assign keeps init's value. -/
def beginMsg (h : Handle) (init : List Nat) : List Nat :=
  let d := h.device
  let m1 := (((init.set 0 T56_BEGIN_TRANS).set 1 (d.protocol_id % 256)).set 2
    (d.variant % 256)).set 3 (h.icsp % 256)
  let m2 := format_int m1 4 2 d.voltages.raw_voltages
  let m3 := (m2.set 6 (d.chip_info % 256)).set 7 (d.pin_map % 256)
  let m4 := format_int m3 8 2 d.data_memory_size
  let m5 := format_int m4 10 2 d.page_size
  let m6 := format_int m5 12 2 d.pulse_delay
  let m7 := format_int m6 14 2 d.data_memory2_size
  let m8 := format_int m7 16 4 d.code_memory_size
  let m9 := m8.set 20 ((d.voltages.raw_voltages / 2 ^ 16) % 256)
  let m10 := if Nat.land d.voltages.raw_voltages 0xf0 = 0xf0 then
      m9.set 22 (d.voltages.raw_voltages % 256)
    else
      (m9.set 21 (Nat.land d.voltages.raw_voltages 0x0f)).set 22
        (Nat.land d.voltages.raw_voltages 0xf0)
  let m11 := if Nat.land d.voltages.raw_voltages 0x80000000 ≠ 0 then
      m10.set 22 (Nat.land (d.voltages.raw_voltages / 2 ^ 16) 0x0f)
    else m10
  let m12 := format_int m11 40 4 d.packed_package
  let m13 := format_int m12 44 2 d.read_buffer_size
  format_int m13 56 4 d.flags.raw_flags

/-- Result of t56_begin_transaction: success flag, updated session flag,
trace. -/
structure BeginOut where
  ok : Bool
  uploaded : Bool
  trace : List Event

/-- Shallow embedding of t56_begin_transaction (t56.c lines 113-181): invoke
the bitstream uploader, then either send the 64-byte native begin message or
dispatch to bb_begin_transaction, then poll the overcurrent status (a native
poll in both cases) and fail if the overcurrent byte is nonzero. -/
def t56_begin_transaction (c : Ctx) (h : Handle) (init : List Nat)
    (uploaded : Bool) : BeginOut :=
  let bs := t56_send_bitstream c 0 uploaded
  if bs.ok = false then { ok := false, uploaded := bs.uploaded, trace := bs.trace }
  else if h.device.flags.custom_protocol = false then
    let msg := beginMsg h init
    if c.ok bs.next then
      let st := t56_get_ovc_status c (bs.next + 1) h none 0
      if st.ok then
        if st.out.2 ≠ 0 then
          { ok := false, uploaded := bs.uploaded,
            trace := bs.trace ++ [.send msg 64] ++ st.trace }
        else
          { ok := true, uploaded := bs.uploaded,
            trace := bs.trace ++ [.send msg 64] ++ st.trace }
      else { ok := false, uploaded := bs.uploaded,
             trace := bs.trace ++ [.send msg 64] ++ st.trace }
    else { ok := false, uploaded := bs.uploaded,
           trace := bs.trace ++ [.send msg 64] }
  else
    if c.bb then
      let st := t56_get_ovc_status c bs.next h none 0
      if st.ok then
        if st.out.2 ≠ 0 then
          { ok := false, uploaded := bs.uploaded,
            trace := bs.trace ++ [.bb .beginTrans] ++ st.trace }
        else
          { ok := true, uploaded := bs.uploaded,
            trace := bs.trace ++ [.bb .beginTrans] ++ st.trace }
      else { ok := false, uploaded := bs.uploaded,
             trace := bs.trace ++ [.bb .beginTrans] ++ st.trace }
    else { ok := false, uploaded := bs.uploaded,
           trace := bs.trace ++ [.bb .beginTrans] }

/-- Shallow embedding of t56_end_transaction (t56.c lines 184-194). -/
def t56_end_transaction (c : Ctx) (h : Handle) : Res Unit :=
  if h.device.flags.custom_protocol then
    { ok := c.bb, out := (), trace := [.bb .endTrans] }
  else
    { ok := c.ok 0, out := (),
      trace := [.send ((zeros 8).set 0 T56_END_TRANS) 8] }

/-- Shallow embedding of t56_erase (t56.c lines 433-452).  Byte 2 of the
15-byte request: 1 when the device has no fuse declaration or the declared
count is nonzero; when a declaration exists with count zero the else branch
runs and byte 2 becomes the (zero) count, the greater-than-4 guard never
firing there. -/
def t56_erase (c : Ctx) (h : Handle) : Res Unit :=
  if h.device.flags.custom_protocol then
    { ok := c.bb, out := (), trace := [.bb .eraseOp] }
  else
    let byte2 := match h.device.config with
      | none => 1
      | some fuses =>
        if fuses.num_fuses ≠ 0 then 1
        else if fuses.num_fuses > 4 then 1 else fuses.num_fuses % 256
    let msg := ((zeros 64).set 0 T56_ERASE).set 2 byte2
    if c.ok 0 then { ok := c.ok 1, out := (), trace := [.send msg 15, .recv 64] }
    else { ok := false, out := (), trace := [.send msg 15] }

/-- Shallow embedding of t56_protect_off (t56.c lines 410-419). -/
def t56_protect_off (c : Ctx) (h : Handle) : Res Unit :=
  if h.device.flags.custom_protocol then
    { ok := c.bb, out := (), trace := [.bb .protectOff] }
  else
    { ok := c.ok 0, out := (),
      trace := [.send ((zeros 8).set 0 T56_PROTECT_OFF) 8] }

/-- Shallow embedding of t56_protect_on (t56.c lines 421-430). -/
def t56_protect_on (c : Ctx) (h : Handle) : Res Unit :=
  if h.device.flags.custom_protocol then
    { ok := c.bb, out := (), trace := [.bb .protectOn] }
  else
    { ok := c.ok 0, out := (),
      trace := [.send ((zeros 8).set 0 T56_PROTECT_ON) 8] }

/-- Shallow embedding of t56_write_jedec_row (t56.c lines 475-490). -/
def t56_write_jedec_row (c : Ctx) (h : Handle) (buffer : List Nat)
    (row fl size : Nat) : Res Unit :=
  if h.device.flags.custom_protocol then
    { ok := c.bb, out := (), trace := [.bb (.writeJedecRow row fl size)] }
  else
    let msg := memcpyInto ((((((zeros 64).set 0 T56_WRITE_JEDEC).set 1
      (h.device.protocol_id % 256)).set 2 (size % 256)).set 4 (row % 256)).set 5
      (fl % 256)) 8 buffer ((size + 7) / 8)
    { ok := c.ok 0, out := (), trace := [.send msg 64] }

/-- Shallow embedding of t56_read_jedec_row (t56.c lines 492-511). -/
def t56_read_jedec_row (c : Ctx) (h : Handle) (buffer : List Nat)
    (row fl size : Nat) : Res (List Nat) :=
  if h.device.flags.custom_protocol then
    { ok := c.bb, out := buffer, trace := [.bb (.readJedecRow row fl size)] }
  else
    let msg := (((((zeros 32).set 0 T56_READ_JEDEC).set 1
      (h.device.protocol_id % 256)).set 2 (size % 256)).set 4 (row % 256)).set 5
      (fl % 256)
    if c.ok 0 then
      if c.ok 1 then
        let resp := (List.range 32).map (c.rd 1)
        { ok := true, out := memcpyFrom buffer resp 0 ((size + 7) / 8),
          trace := [.send msg 8, .recv 32] }
      else { ok := false, out := buffer, trace := [.send msg 8, .recv 32] }
    else { ok := false, out := buffer, trace := [.send msg 8] }

/-- Shallow embedding of t56_spi_autodetect (t56.c lines 370-408).  The
synthetic device descriptor only feeds get_algorithm, which the algoOk
oracle models, so it does not appear explicitly. -/
def t56_spi_autodetect (c : Ctx) (h : Handle) (ty : Nat) (uploaded : Bool)
    (id0 : Nat) : Res Nat :=
  if h.device.flags.custom_protocol then
    { ok := c.bb, out := id0, trace := [.bb (.spiAutodetect ty)] }
  else
    let bs := t56_send_bitstream c 0 uploaded
    if bs.ok = false then { ok := false, out := id0, trace := bs.trace }
    else
      let msg := ((zeros 64).set 0 T56_AUTODETECT).set 8 (ty % 256)
      if c.ok bs.next then
        if c.ok (bs.next + 1) then
          let resp := (List.range 16).map (c.rd (bs.next + 1))
          { ok := true, out := load_int_be resp 2 3,
            trace := bs.trace ++ [.send msg 10, .recv 16] }
        else { ok := false, out := id0, trace := bs.trace ++ [.send msg 10, .recv 16] }
      else { ok := false, out := id0, trace := bs.trace ++ [.send msg 10] }

/-- Recognizer for a transport send whose message starts with the
WRITE_BITSTREAM opcode (the bitstream upload header). -/
def isBitstreamSend : Event → Bool
  | .send d _ => byteAt d 0 == T56_WRITE_BITSTREAM
  | _ => false

/-- Recognizer for a native transport send event. -/
def isSendEvent : Event → Bool
  | .send _ _ => true
  | _ => false

/- Concrete test fixtures used by the closed evaluation theorems and the
witnesses. -/

/-- Transport oracle on which every call succeeds and every received byte
is zero. -/
def ctxAllOk : Ctx :=
  { ok := fun _ => true, rd := fun _ _ => 0, bb := true, algoOk := true,
    algoLength := 4, bitstream := [1, 2, 3, 4] }

/-- Transport oracle on which every call fails. -/
def ctxFail : Ctx :=
  { ok := fun _ => false, rd := fun _ _ => 0, bb := false, algoOk := true,
    algoLength := 4, bitstream := [1, 2, 3, 4] }

/-- A representative native-protocol device descriptor. -/
def devBase : Device :=
  { protocol_id := 7, variant := 2, chip_info := 5, pin_map := 9,
    data_memory_size := 256, data_memory2_size := 16, page_size := 64,
    pulse_delay := 10, code_memory_size := 0x1000,
    voltages := { raw_voltages := 0 }, packed_package := 0x123456,
    read_buffer_size := 0x200, write_buffer_size := 0x100,
    chip_id_bytes_count := 2,
    flags := { custom_protocol := false, raw_flags := 0 }, config := none }

def hBase : Handle := { device := devBase, icsp := 0 }

/-- The base device with the custom-protocol flag set. -/
def devCustom : Device :=
  { devBase with flags := { custom_protocol := true, raw_flags := 0 } }

def hCustom : Handle := { device := devCustom, icsp := 0 }

/-- The base device with a fuse declaration of two fuses. -/
def devFuses2 : Device := { devBase with config := some { num_fuses := 2 } }

def hFuses2 : Handle := { device := devFuses2, icsp := 0 }

/-- The base device with raw voltage value 0xf0, which passes the low-byte
0xf0 nibble test of begin_transaction. -/
def devVoltF0 : Device := { devBase with voltages := { raw_voltages := 0xf0 } }

def hVoltF0 : Handle := { device := devVoltF0, icsp := 0 }

/-- A 64-byte buffer of residue bytes 0xAA, standing for the prior contents
of the uninitialized stack message buffer of begin_transaction. -/
def initAA : List Nat := List.replicate 64 0xAA

/-- The dispatch behavior of this layer for a device whose custom_protocol
flag is set: every dispatching operation forwards its arguments verbatim to
the corresponding alternate-protocol operation, returning its result, with
that forward as its only trace event (so no native send of its own), while
get_ovc_status still issues the native status-request send first and
begin_transaction (entered with the bitstream already uploaded) forwards
only its body, its first trace event being the forwarded call. -/
def dispatchContract (c : Ctx) (h : Handle) (ty : MPMemType) (fy : MPFuseType)
    (addr len length items row fl size t0 i0 ovc0 sty : Nat)
    (buf : List Nat) (obuf : Option (List Nat)) (st0 : Option MinStatus) :
    Prop :=
  ((t56_end_transaction c h).ok = c.bb ∧
    (t56_end_transaction c h).trace = [.bb .endTrans]) ∧
  ((t56_read_block c h ty addr buf len).ok = c.bb ∧
    (t56_read_block c h ty addr buf len).trace =
      [.bb (.readBlock ty addr len)]) ∧
  ((t56_write_block c h ty addr buf len).ok = c.bb ∧
    (t56_write_block c h ty addr buf len).trace =
      [.bb (.writeBlock ty addr len)]) ∧
  ((t56_read_fuses c h fy length items buf).ok = c.bb ∧
    (t56_read_fuses c h fy length items buf).trace =
      [.bb (.readFuses fy length items)]) ∧
  ((t56_write_fuses c h fy length items obuf).ok = c.bb ∧
    (t56_write_fuses c h fy length items obuf).trace =
      [.bb (.writeFuses fy length items)]) ∧
  ((t56_read_calibration c h buf len).ok = c.bb ∧
    (t56_read_calibration c h buf len).trace = [.bb (.readCalibration len)]) ∧
  ((t56_get_chip_id c h t0 i0).ok = c.bb ∧
    (t56_get_chip_id c h t0 i0).trace = [.bb .getChipId]) ∧
  ((t56_protect_off c h).ok = c.bb ∧
    (t56_protect_off c h).trace = [.bb .protectOff]) ∧
  ((t56_protect_on c h).ok = c.bb ∧
    (t56_protect_on c h).trace = [.bb .protectOn]) ∧
  ((t56_erase c h).ok = c.bb ∧ (t56_erase c h).trace = [.bb .eraseOp]) ∧
  ((t56_write_jedec_row c h buf row fl size).ok = c.bb ∧
    (t56_write_jedec_row c h buf row fl size).trace =
      [.bb (.writeJedecRow row fl size)]) ∧
  ((t56_read_jedec_row c h buf row fl size).ok = c.bb ∧
    (t56_read_jedec_row c h buf row fl size).trace =
      [.bb (.readJedecRow row fl size)]) ∧
  ((t56_spi_autodetect c h sty true i0).ok = c.bb ∧
    (t56_spi_autodetect c h sty true i0).trace =
      [.bb (.spiAutodetect sty)]) ∧
  (t56_get_ovc_status c 0 h st0 ovc0).trace.head? =
    some (.send ((zeros 32).set 0 T56_REQUEST_STATUS) 8) ∧
  (t56_begin_transaction c h buf true).trace.head? = some (.bb .beginTrans)

/- Helper lemmas about the message codec. -/

theorem byteAt_set_self (l : List Nat) (i v : Nat) (h : i < l.length) :
    byteAt (l.set i v) i = v := by
  simp [byteAt, List.getD, List.getElem?_set, h]

theorem byteAt_set_ne (l : List Nat) (i j v : Nat) (h : j ≠ i) :
    byteAt (l.set i v) j = byteAt l j := by
  simp [byteAt, List.getD, List.getElem?_set, (Ne.symm h : i ≠ j)]

theorem length_format_int (n : Nat) : ∀ (b : List Nat) (off v : Nat),
    (format_int b off n v).length = b.length := by
  induction n with
  | zero => intro b off v; rfl
  | succ n ih => intro b off v; rw [format_int, ih]; simp

theorem byteAt_format_int_lo (n : Nat) : ∀ (b : List Nat) (off v i : Nat),
    i < off → byteAt (format_int b off n v) i = byteAt b i := by
  induction n with
  | zero => intro b off v i _; rfl
  | succ n ih =>
    intro b off v i hi
    rw [format_int, ih _ _ _ _ (by omega)]
    exact byteAt_set_ne _ _ _ _ (by omega)

theorem byteAt_format_int_hi (n : Nat) : ∀ (b : List Nat) (off v i : Nat),
    off + n ≤ i → byteAt (format_int b off n v) i = byteAt b i := by
  induction n with
  | zero => intro b off v i _; rfl
  | succ n ih =>
    intro b off v i hi
    rw [format_int, ih _ _ _ _ (by omega)]
    exact byteAt_set_ne _ _ _ _ (by omega)

theorem load_int_le_congr (n : Nat) : ∀ (b1 b2 : List Nat) (off : Nat),
    (∀ j, j < n → byteAt b1 (off + j) = byteAt b2 (off + j)) →
    load_int_le b1 off n = load_int_le b2 off n := by
  induction n with
  | zero => intro b1 b2 off _; rfl
  | succ n ih =>
    intro b1 b2 off hcong
    rw [load_int_le, load_int_le]
    have h0 : byteAt b1 off = byteAt b2 off := by
      have := hcong 0 (by omega); simpa using this
    rw [h0, ih b1 b2 (off + 1) fun j hj => by
      have := hcong (j + 1) (by omega)
      rwa [show off + (j + 1) = off + 1 + j by omega] at this]

theorem load_format_int (n : Nat) : ∀ (b : List Nat) (off v : Nat),
    off + n ≤ b.length →
    load_int_le (format_int b off n v) off n = v % 256 ^ n := by
  induction n with
  | zero => intro b off v _; simp [format_int, load_int_le, Nat.mod_one]
  | succ n ih =>
    intro b off v hlen
    rw [format_int, load_int_le]
    have hb : byteAt (format_int (b.set off (v % 256)) (off + 1) n (v / 256))
        off = v % 256 := by
      rw [byteAt_format_int_lo _ _ _ _ _ (by omega)]
      exact byteAt_set_self _ _ _ (by omega)
    rw [hb, ih _ (off + 1) (v / 256) (by simp; omega)]
    rw [show (256 : Nat) ^ (n + 1) = 256 * 256 ^ n by ring]
    exact (Nat.mod_mul).symm

theorem byteAt_memcpyInto_lo (b src : List Nat) (off n i : Nat)
    (h1 : i < off) (h2 : off ≤ b.length) :
    byteAt (memcpyInto b off src n) i = byteAt b i := by
  have hl : i < (b.take off).length := by simp [List.length_take]; omega
  have hb : i < b.length := by omega
  simp [byteAt, memcpyInto, List.getD, List.getElem?_append, hl,
    List.getElem?_take, h1, hb]

/-- The trace of get_ovc_status never contains a bitstream-upload send. -/
theorem ovc_trace_no_bitstream (c : Ctx) (i0 : Nat) (h : Handle)
    (st0 : Option MinStatus) (ovc0 : Nat) :
    (t56_get_ovc_status c i0 h st0 ovc0).trace.filter isBitstreamSend = [] := by
  unfold t56_get_ovc_status
  split_ifs <;>
    simp [isBitstreamSend, byteAt_set_self, zeros, T56_REQUEST_STATUS,
      T56_WRITE_BITSTREAM] <;>
    decide

/-- The trace of get_ovc_status always starts with the native 8-byte
status-request send, whatever the custom-protocol flag says. -/
theorem ovc_trace_head (c : Ctx) (i0 : Nat) (h : Handle)
    (st0 : Option MinStatus) (ovc0 : Nat) :
    (t56_get_ovc_status c i0 h st0 ovc0).trace.head? =
      some (.send ((zeros 32).set 0 T56_REQUEST_STATUS) 8) := by
  unfold t56_get_ovc_status
  split_ifs <;> rfl

/-- Byte 0 of the begin-transaction message is always the BEGIN opcode. -/
theorem beginMsg_byteAt_zero (h : Handle) (init : List Nat)
    (hlen : 0 < init.length) :
    byteAt (beginMsg h init) 0 = T56_BEGIN_TRANS := by
  simp only [beginMsg]
  split_ifs <;>
    simp [byteAt_format_int_lo, byteAt_set_ne, byteAt_set_self, hlen]

/-- C1: the claim states that every block or fuse operation called with an
unsupported kind returns failure and issues no transport call.  This fails
for write_fuses: its unknown-kind branch prints a diagnostic but does not
return, so the full 64-byte message is still sent with the unmapped kind
byte as its opcode, and the transport result is returned.  This theorem
evaluates the embedding at the failing input (kind byte 0x99, null buffer):
the operation reports success and its trace contains one transport send. -/
theorem c1_write_fuses_unknown_kind_sends :
    (t56_write_fuses ctxAllOk hBase (.other 0x99) 0 0 none).ok = true ∧
    (t56_write_fuses ctxAllOk hBase (.other 0x99) 0 0 none).trace =
      [.send ((zeros 64).set 0 0x99) 64] := by
  decide

/-- C2: the claim states that byte 2 of the 15-byte erase request is 1 when
there is no fuse declaration or the declared count is zero, and
min(count, 4) otherwise.  The code instead sends 1 whenever the declared
count is nonzero (and 0 when a declaration exists with count zero): on a
device declaring 2 fuses the request carries 1 where the claim requires
min(2, 4) = 2.  The 15-byte request and 64-byte acknowledgment are as
claimed. -/
theorem c2_erase_clamped_count_diverges :
    (t56_erase ctxAllOk hFuses2).trace =
      [.send (((zeros 64).set 0 T56_ERASE).set 2 1) 15, .recv 64] ∧
    (1 : Nat) ≠ min 2 4 := by
  decide

/-- C3: the claim states that when the raw voltage value passes the 0xf0
low-byte test, begin_transaction writes the full low byte to offset 22 and
leaves offset 21 at zero.  The code never zero-initializes the begin
message buffer, so offset 21 keeps the buffer's prior contents: evaluated
at raw voltage 0xf0 over a residue buffer of 0xAA bytes, offset 22 is 0xf0
as claimed but offset 21 is 0xAA, not zero. -/
theorem c3_voltage_packing_offset21_not_zero :
    byteAt (beginMsg hVoltF0 initAA) 22 = 0xf0 ∧
    byteAt (beginMsg hVoltF0 initAA) 21 = 0xAA ∧ (0xAA : Nat) ≠ 0 := by
  decide

/-- C5: the claim states that every request message buffer is
zero-initialized before its fields are written.  get_chip_id instead fills
its buffer with memset(msg, 0xd0, 32) before setting the opcode, so byte 1
of the 8-byte request it sends is 0xd0, not zero (and begin_transaction
performs no initialization at all, compare the C3 theorem). -/
theorem c5_get_chip_id_buffer_not_zero_initialized :
    (t56_get_chip_id ctxAllOk hBase 0 0).trace.head? =
      some (.send ((List.replicate 32 0xd0).set 0 T56_READID) 8) ∧
    byteAt ((List.replicate 32 0xd0).set 0 T56_READID) 1 = 0xd0 ∧
    (0xd0 : Nat) ≠ 0 := by
  decide

/-- C10: when a transport send or receive fails, the caller-provided
outputs are left unchanged: read_fuses returns its output buffer untouched,
get_chip_id returns the prior type and device-id values, and
get_ovc_status returns the prior status record and overcurrent byte;
outputs are written only after all transport calls of the operation
succeed. -/
theorem c10_outputs_unchanged_on_failure (c : Ctx) (h : Handle)
    (fy : MPFuseType) (length items t0 i0 ovc0 : Nat)
    (buffer : List Nat) (st0 : Option MinStatus)
    (hc : h.device.flags.custom_protocol = false)
    (hfail : c.ok 0 = false ∨ c.ok 1 = false) :
    (t56_read_fuses c h fy length items buffer).out = buffer ∧
    (t56_get_chip_id c h t0 i0).out = (t0, i0) ∧
    (t56_get_ovc_status c 0 h st0 ovc0).out = (st0, ovc0) := by
  rcases hfail with hf | hf
  · cases fy <;>
      simp [t56_read_fuses, t56_get_chip_id, t56_get_ovc_status,
        readFuseOpcode, hc, hf]
  · cases h0 : c.ok 0 <;> cases fy <;>
      simp [t56_read_fuses, t56_get_chip_id, t56_get_ovc_status,
        readFuseOpcode, hc, hf, h0]

/-- C10 witness: on the all-failing transport every output of the three
operations is returned unchanged. -/
theorem c10_witness :
    (t56_read_fuses ctxFail hBase .cfg 4 1 [9, 9, 9, 9]).out = [9, 9, 9, 9] ∧
    (t56_get_chip_id ctxFail hBase 5 6).out = (5, 6) ∧
    (t56_get_ovc_status ctxFail 0 hBase
        (some { error := 1, address := 2, c1 := 3, c2 := 4 }) 7).out =
      (some { error := 1, address := 2, c1 := 3, c2 := 4 }, 7) :=
  c10_outputs_unchanged_on_failure ctxFail hBase .cfg 4 1 5 6 7 [9, 9, 9, 9]
    (some { error := 1, address := 2, c1 := 3, c2 := 4 }) rfl (Or.inl rfl)

/-- C4: write_fuses with a non-null buffer sends a 64-byte message whose
4-byte little-endian field at offset 4 decodes to code_memory_size - 0x38;
the adjustment is applied only on write: the read_fuses header carries
code_memory_size itself at offset 4; and write_fuses with a null buffer
sends a message that is zero everywhere except the opcode byte. -/
theorem c4_write_fuses_length_field (c : Ctx) (h : Handle) (ty : MPFuseType)
    (length items : Nat) (b buf : List Nat)
    (hc : h.device.flags.custom_protocol = false)
    (hlo : 0x38 ≤ h.device.code_memory_size)
    (hhi : h.device.code_memory_size < 2 ^ 32) :
    (∃ msg, (t56_write_fuses c h ty length items (some b)).trace =
        [.send msg 64] ∧
      load_int_le msg 4 4 = h.device.code_memory_size - 0x38) ∧
    (t56_write_fuses c h ty length items none).trace =
      [.send ((zeros 64).set 0 (writeFuseOpcode ty)) 64] ∧
    (∀ op, readFuseOpcode ty = some op →
      ∃ msg, (t56_read_fuses c h ty length items buf).trace.head? =
          some (.send msg 8) ∧
        load_int_le msg 4 4 = h.device.code_memory_size) := by
  have h256 : (256 : Nat) ^ 4 = 2 ^ 32 := by norm_num
  refine ⟨?_, ?_, ?_⟩
  · simp only [t56_write_fuses, hc, Bool.false_eq_true, if_false]
    refine ⟨_, rfl, ?_⟩
    have hlen2 : ((((zeros 64).set 0 (writeFuseOpcode ty)).set 1
        (h.device.protocol_id % 256)).set 2 (items % 256)).length = 64 := by
      simp [zeros]
    rw [load_int_le_congr 4 _
        (format_int ((((zeros 64).set 0 (writeFuseOpcode ty)).set 1
          (h.device.protocol_id % 256)).set 2 (items % 256)) 4 4
          ((h.device.code_memory_size + 2 ^ 32 - 0x38) % 2 ^ 32)) 4
        (fun j hj => byteAt_memcpyInto_lo _ _ _ _ _ (by omega)
          (by rw [length_format_int, hlen2]; omega))]
    rw [load_format_int 4 _ _ _ (by rw [hlen2]; omega)]
    rw [h256]
    omega
  · simp only [t56_write_fuses, hc, Bool.false_eq_true, if_false]
  · intro op hop
    simp only [t56_read_fuses, hc, Bool.false_eq_true, if_false, hop]
    have hload : load_int_le (format_int ((((zeros 64).set 0 op).set 1
        (h.device.protocol_id % 256)).set 2 (items % 256)) 4 4
        h.device.code_memory_size) 4 4 = h.device.code_memory_size := by
      rw [load_format_int 4 _ _ _ (by simp [zeros])]
      rw [h256]
      omega
    by_cases h0 : c.ok 0 = true
    · simp only [h0, if_true]
      by_cases h1 : c.ok 1 = true
      · simp only [h1, if_true]
        exact ⟨_, rfl, hload⟩
      · simp only [eq_false_of_ne_true h1, if_false]
        exact ⟨_, rfl, hload⟩
    · simp only [eq_false_of_ne_true h0, if_false]
      exact ⟨_, rfl, hload⟩

/-- C4 witness: the theorem at a concrete device (code_memory_size 0x1000)
and concrete buffers. -/
theorem c4_witness :
    (∃ msg, (t56_write_fuses ctxAllOk hBase .user 4 1 (some [1, 2, 3, 4])).trace =
        [.send msg 64] ∧
      load_int_le msg 4 4 = hBase.device.code_memory_size - 0x38) ∧
    (t56_write_fuses ctxAllOk hBase .user 4 1 none).trace =
      [.send ((zeros 64).set 0 (writeFuseOpcode .user)) 64] ∧
    (∀ op, readFuseOpcode .user = some op →
      ∃ msg, (t56_read_fuses ctxAllOk hBase .user 4 1 []).trace.head? =
          some (.send msg 8) ∧
        load_int_le msg 4 4 = hBase.device.code_memory_size) :=
  c4_write_fuses_length_field ctxAllOk hBase .user 4 1 [1, 2, 3, 4] [] rfl
    (by decide) (by decide)

/-- C7: read_block with a supported kind sends an 8-byte header and then
requests exactly len + 16 bytes from the transport, and the first len bytes
of the buffer it returns are the payload the transport delivered. -/
theorem c7_read_block_requests_len_plus_16 (c : Ctx) (h : Handle)
    (ty : MPMemType) (op addr len : Nat) (buf : List Nat)
    (hc : h.device.flags.custom_protocol = false)
    (hop : readBlockOpcode ty = some op) (h0 : c.ok 0 = true) :
    ∃ msg, (t56_read_block c h ty addr buf len).trace =
        [.send msg 8, .recv (len + 16)] ∧
      (t56_read_block c h ty addr buf len).out.take len =
        (List.range len).map (c.rd 1) := by
  simp only [t56_read_block, hc, Bool.false_eq_true, if_false, hop, h0, if_true]
  refine ⟨_, rfl, ?_⟩
  unfold recvInto
  rw [List.take_append_of_le_length (by simp)]
  rw [← List.map_take, List.take_range len (len + 16),
    Nat.min_eq_left (by omega)]

/-- C7 witness: the theorem at kind code, length 2, over the all-zero
transport. -/
theorem c7_witness :
    ∃ msg, (t56_read_block ctxAllOk hBase .code 0x20 [7, 7, 7] 2).trace =
        [.send msg 8, .recv (2 + 16)] ∧
      (t56_read_block ctxAllOk hBase .code 0x20 [7, 7, 7] 2).out.take 2 =
        (List.range 2).map (ctxAllOk.rd 1) :=
  c7_read_block_requests_len_plus_16 ctxAllOk hBase .code T56_READ_CODE 0x20 2
    [7, 7, 7] rfl rfl rfl

/-- C8: when both transport calls succeed, get_chip_id returns the response
type byte, and decodes the device id from min(chip_id_bytes_count, 4) bytes
starting at response offset 2, little-endian when the type byte is 3 or 4
and big-endian otherwise; a zero chip-ID byte count yields id 0. -/
theorem c8_get_chip_id_decode (c : Ctx) (h : Handle) (t0 i0 : Nat)
    (hc : h.device.flags.custom_protocol = false)
    (h0 : c.ok 0 = true) (h1 : c.ok 1 = true) :
    (t56_get_chip_id c h t0 i0).ok = true ∧
    (t56_get_chip_id c h t0 i0).out.1 =
      byteAt ((List.range 32).map (c.rd 1)) 0 ∧
    (t56_get_chip_id c h t0 i0).out.2 =
      (if h.device.chip_id_bytes_count = 0 then 0
       else if byteAt ((List.range 32).map (c.rd 1)) 0 = 3 ∨
           byteAt ((List.range 32).map (c.rd 1)) 0 = 4 then
         load_int_le ((List.range 32).map (c.rd 1)) 2
           (min h.device.chip_id_bytes_count 4)
       else load_int_be ((List.range 32).map (c.rd 1)) 2
           (min h.device.chip_id_bytes_count 4)) := by
  simp only [t56_get_chip_id, hc, Bool.false_eq_true, if_false, h0, h1,
    if_true, MP_ID_TYPE3, MP_ID_TYPE4]
  refine ⟨trivial, trivial, ?_⟩
  have hmin : (if h.device.chip_id_bytes_count > 4 then 4
      else h.device.chip_id_bytes_count) = min h.device.chip_id_bytes_count 4 := by
    split_ifs <;> omega
  rw [hmin]
  by_cases hz : h.device.chip_id_bytes_count = 0
  · simp [hz]
  · have hnz : min h.device.chip_id_bytes_count 4 ≠ 0 := by omega
    simp only [hnz, hz, if_false, ne_eq, not_false_iff, if_true]

/-- C8 witness: the theorem at the base device (chip-ID byte count 2) over
the all-zero transport. -/
theorem c8_witness :
    (t56_get_chip_id ctxAllOk hBase 0 0).ok = true ∧
    (t56_get_chip_id ctxAllOk hBase 0 0).out.1 =
      byteAt ((List.range 32).map (ctxAllOk.rd 1)) 0 ∧
    (t56_get_chip_id ctxAllOk hBase 0 0).out.2 =
      (if hBase.device.chip_id_bytes_count = 0 then 0
       else if byteAt ((List.range 32).map (ctxAllOk.rd 1)) 0 = 3 ∨
           byteAt ((List.range 32).map (ctxAllOk.rd 1)) 0 = 4 then
         load_int_le ((List.range 32).map (ctxAllOk.rd 1)) 2
           (min hBase.device.chip_id_bytes_count 4)
       else load_int_be ((List.range 32).map (ctxAllOk.rd 1)) 2
           (min hBase.device.chip_id_bytes_count 4)) :=
  c8_get_chip_id_decode ctxAllOk hBase 0 0 rfl rfl rfl

/-- When the session flag is already set, begin_transaction issues no
bitstream sends: its trace is the begin message (or the forwarded begin
call) followed by the status poll. -/
theorem begin_trace_uploaded (c : Ctx) (h : Handle) (init : List Nat) :
    (t56_begin_transaction c h init true).trace =
      (if h.device.flags.custom_protocol = false then
        (if c.ok 0 then
          [Event.send (beginMsg h init) 64] ++
            (t56_get_ovc_status c 1 h none 0).trace
         else [Event.send (beginMsg h init) 64])
       else
        (if c.bb then
          [Event.bb .beginTrans] ++ (t56_get_ovc_status c 0 h none 0).trace
         else [Event.bb .beginTrans])) := by
  simp only [t56_begin_transaction, t56_send_bitstream, if_true]
  split_ifs <;> simp_all

/-- C6 counterexample: with the custom-protocol flag set, get_ovc_status
does not forward to an alternate-protocol operation and still issues a
native transport send of its own, so the claim fails at this operation. -/
theorem c6_counterexample_ovc_status_native_send :
    (t56_get_ovc_status ctxAllOk 0 hCustom none 0).trace.filter isSendEvent ≠
      [] := by
  decide

/-- C6 (amended): every public operation of the layer except
get_ovc_status and begin_transaction forwards its arguments verbatim to the
alternate-protocol operation when the custom_protocol flag is set,
returning its result with no native send of its own; get_ovc_status always
issues the native status request first regardless of the flag, and
begin_transaction forwards only its body, still polling status natively. -/
theorem c6_custom_protocol_dispatch (c : Ctx) (h : Handle) (ty : MPMemType)
    (fy : MPFuseType) (addr len length items row fl size t0 i0 ovc0 sty : Nat)
    (buf : List Nat) (obuf : Option (List Nat)) (st0 : Option MinStatus)
    (hc : h.device.flags.custom_protocol = true) :
    dispatchContract c h ty fy addr len length items row fl size t0 i0 ovc0
      sty buf obuf st0 := by
  unfold dispatchContract
  have hbegin : (t56_begin_transaction c h buf true).trace.head? =
      some (.bb .beginTrans) := by
    rw [begin_trace_uploaded]
    simp only [hc, Bool.true_eq_false, if_false]
    split_ifs <;> rfl
  refine ⟨?_, ?_, ?_, ?_, ?_, ?_, ?_, ?_, ?_, ?_, ?_, ?_, ?_,
    ovc_trace_head c 0 h st0 ovc0, hbegin⟩ <;>
    simp [t56_end_transaction, t56_read_block, t56_write_block,
      t56_read_fuses, t56_write_fuses, t56_read_calibration, t56_get_chip_id,
      t56_protect_off, t56_protect_on, t56_erase, t56_write_jedec_row,
      t56_read_jedec_row, t56_spi_autodetect, hc]

/-- C6 witness: the amended dispatch contract at a concrete custom-protocol
device and concrete arguments. -/
theorem c6_witness :
    dispatchContract ctxAllOk hCustom .code .user 1 2 3 4 5 6 7 8 9 10 11
      [1, 2] none none :=
  c6_custom_protocol_dispatch ctxAllOk hCustom .code .user 1 2 3 4 5 6 7 8 9
    10 11 [1, 2] none none rfl

/-- C9: once a begin_transaction has left the session flag set (the
bitstream was uploaded), the uploader sends nothing when invoked again, and
a later begin_transaction in the same session performs no bitstream-write
transport sends at all. -/
theorem c9_bitstream_uploaded_once (c1 c2 : Ctx) (h1 h2 : Handle)
    (init1 init2 : List Nat) (up0 : Bool)
    (hfirst : (t56_begin_transaction c1 h1 init1 up0).uploaded = true)
    (hlen : 0 < init2.length) :
    (t56_send_bitstream c2 0
        (t56_begin_transaction c1 h1 init1 up0).uploaded).trace = [] ∧
    ((t56_begin_transaction c2 h2 init2
          (t56_begin_transaction c1 h1 init1 up0).uploaded).trace.filter
        isBitstreamSend) = [] := by
  rw [hfirst]
  refine ⟨rfl, ?_⟩
  have hmsg : isBitstreamSend (.send (beginMsg h2 init2) 64) = false := by
    simp [isBitstreamSend, beginMsg_byteAt_zero h2 init2 hlen,
      T56_BEGIN_TRANS, T56_WRITE_BITSTREAM]
  rw [begin_trace_uploaded]
  split_ifs
  · rw [List.filter_append, ovc_trace_no_bitstream, List.append_nil]
    simp [List.filter_cons, List.filter_nil, hmsg]
  · simp [List.filter_cons, List.filter_nil, hmsg]
  · rw [List.filter_append, ovc_trace_no_bitstream, List.append_nil]
    decide
  · decide

/-- C9 witness: a first begin_transaction from a fresh session over the
all-succeeding transport uploads the bitstream, and the second one issues
no bitstream sends. -/
theorem c9_witness :
    (t56_send_bitstream ctxAllOk 0
        (t56_begin_transaction ctxAllOk hBase initAA false).uploaded).trace =
      [] ∧
    ((t56_begin_transaction ctxAllOk hBase initAA
          (t56_begin_transaction ctxAllOk hBase initAA false).uploaded).trace.filter
        isBitstreamSend) = [] :=
  c9_bitstream_uploaded_once ctxAllOk ctxAllOk hBase hBase initAA initAA
    false (by decide) (by decide)

end T56
